import Mathlib

/-
Verification of the `ai_english` grading service (src/app.py).

The repository is a single Flask endpoint `POST /api/grade` (`grade_writing`) that
parses a student submission, extracts text (directly or via an OCR oracle),
loads an optional answer-key reference from blob storage, assembles a prompt,
calls a generative model and normalises the model response into a JSON body.

We give a shallow embedding: external collaborators (OCR, blob storage, the
model, the Python json codec) are oracles packaged in `Env` and in per-file
fields of `UploadedFile`; the control flow of `grade_writing` and its helper
functions is translated from source into total executable functions.
Python strings are `String`, Python `None`-able strings are `Option String`,
JSON values are `JValue`, exceptions that escape the handler body are the
`Except`-error channel of `gradeBody`, caught by `gradeWriting` (the
`@app.route` boundary, line 999 of src/app.py).
-/

/-- JSON values as produced by the Python json codec. Objects keep their
(unique) keys in insertion order, matching Python dicts. -/
inductive JValue where
  | null : JValue
  | bool : Bool → JValue
  | num : Int → JValue
  | str : String → JValue
  | arr : List JValue → JValue
  | obj : List (String × JValue) → JValue

/-- Python truthiness of a JSON value (`if not lesson_data:` in source). -/
def jtruthy : JValue → Bool
  | .null => false
  | .bool b => b
  | .num n => n != 0
  | .str s => s != ""
  | .arr xs => !xs.isEmpty
  | .obj fs => !fs.isEmpty

/-- Dictionary lookup (`d.get(k)` / `k in d`); keys are unique in dicts
coming from `json.loads`, so first match is the match. -/
def lookupField : List (String × JValue) → String → Option JValue
  | [], _ => none
  | (k, v) :: t, key => if k = key then some v else lookupField t key

/-- Dictionary assignment `d[k] = v`: replace the binding if the key is
present, else append a new binding (insertion order semantics). -/
def setField : List (String × JValue) → String → JValue → List (String × JValue)
  | [], key, v => [(key, v)]
  | (k, w) :: t, key, v =>
      if k = key then (k, v) :: t else (k, w) :: setField t key v

/-- Python truthiness of an optional string (`None` and `""` are falsy). -/
def truthyS : Option String → Bool
  | none => false
  | some s => s != ""

/-- Python `str(x)` for an optional string (`str(None) = "None"`),
used where the source passes a possibly-`None` variable into a format. -/
def pyStr : Option String → String
  | none => "None"
  | some s => s

/-- Characters matched by the regex class `\s` (Python `re`, ASCII part
relevant here) and stripped by `str.strip()`. -/
def pyWs (c : Char) : Bool :=
  c = ' ' || c = '\t' || c = '\n' || c = '\r' || c = '\x0b' || c = '\x0c'

/-- Match a literal list of characters at the head of the input, returning
the remainder on success. -/
def matchLit : List Char → List Char → Option (List Char)
  | [], rest => some rest
  | _ :: _, [] => none
  | p :: ps, c :: cs => if p = c then matchLit ps cs else none

/-- Python substring containment `needle in hay`. -/
def occursIn (needle : List Char) : List Char → Bool
  | [] => (matchLit needle []).isSome
  | c :: t => (matchLit needle (c :: t)).isSome || occursIn needle t

/-- Python `needle in hay` on strings. -/
def containsSub (needle hay : String) : Bool :=
  occursIn needle.data hay.data

/-- Python `s.strip()` on a character list. -/
def pyStripL (cs : List Char) : List Char :=
  ((cs.dropWhile pyWs).reverse.dropWhile pyWs).reverse

/-- Python `s.strip()`. -/
def pyStrip (s : String) : String :=
  String.mk (pyStripL s.data)

/-- Python slice `s[:n]` (by code points, like Lean `Char`s). -/
def pySlice (s : String) (n : Nat) : String :=
  String.mk (s.data.take n)

/-- Literal ```json opener of the fenced-block regex. -/
def fenceLit : List Char := "```json".data

/-- Literal closing fence of the regex. -/
def tickLit : List Char := "```".data

/-- Scanner for the lazy group of the source regex (raw pattern
"triple-backtick json, \s*, braced lazy group, \s*, triple-backtick" with DOTALL,
src/app.py line 965): given the characters after the opening brace, find the
shortest body such that the next character is the closing brace followed by
whitespace and the closing fence. Returns the body between the braces. -/
def findClose : List Char → Option (List Char)
  | [] => none
  | c :: cs =>
      if c = '}' ∧ (matchLit tickLit (cs.dropWhile pyWs)).isSome then
        some []
      else
        (findClose cs).map (fun t => c :: t)

/-- Continuation of the fenced-block match after the literal opener and the
whitespace run: require an opening brace, then the lazy body and closing. -/
def afterFence : List Char → Option (List Char)
  | [] => none
  | c :: rest =>
      if c = '{' then (findClose rest).map (fun mid => '{' :: (mid ++ ['}']))
      else none

/-- Attempt the fenced-block regex match anchored at the current position. -/
def matchFenceAt (cs : List Char) : Option (List Char) :=
  (matchLit fenceLit cs).bind (fun r => afterFence (r.dropWhile pyWs))

/-- Search semantics of re.search for the fenced-block regex: try every start
position left to right, return the first (leftmost) match group. -/
def searchFence : List Char → Option (List Char)
  | [] => none
  | c :: cs =>
      match matchFenceAt (c :: cs) with
      | some g => some g
      | none => searchFence cs

/-- Response-normaliser text selection (src/app.py lines 965-974): the regex
group when the fenced-object search matches, otherwise the whole text. -/
def extractAiText (s : String) : String :=
  match searchFence s.data with
  | some g => String.mk g
  | none => s

/-- Declarative reading of the source regex: `g` is the brace-delimited body
of some ```json ... ```  fenced block of `cs` (whitespace-padded inside the
fence). Used to show the scanner sound and complete. -/
def FencedObjMatch (cs g : List Char) : Prop :=
  ∃ pre ws1 mid ws2 post,
    cs = pre ++ fenceLit ++ ws1 ++ ('{' :: (mid ++ ['}'])) ++ ws2 ++ tickLit ++ post ∧
    (∀ c ∈ ws1, pyWs c = true) ∧
    (∀ c ∈ ws2, pyWs c = true) ∧
    g = '{' :: (mid ++ ['}'])

/-- Split a character list at the first occurrence of a literal, returning
the part before it and the part after it. Used only to formalise the WORDING
of claim C3 (a fenced block delimited by the fence markers, whatever its
body), for comparison with the source behaviour. -/
def splitOnFirst (needle : List Char) : List Char → Option (List Char × List Char)
  | [] => (matchLit needle []).map (fun r => ([], r))
  | c :: t =>
      match matchLit needle (c :: t) with
      | some r => some ([], r)
      | none => (splitOnFirst needle t).map (fun p => (c :: p.1, p.2))

/-- Claim wording of C3: the content of the first ```json ... ```  fenced code
block when one is present (body between the fence markers, stripped). -/
def claimFencedContent (s : String) : Option String :=
  match splitOnFirst fenceLit s.data with
  | none => none
  | some (_, rest) =>
      match splitOnFirst tickLit rest with
      | none => none
      | some (body, _) => some (String.mk (pyStripL body))

/-- Claim wording of C3: parse the fenced content when a fenced block is
present, else the whole text. -/
def claimExtract (s : String) : String :=
  (claimFencedContent s).getD s

/-- Uploaded file (a Werkzeug FileStorage). The two network-visible facts
about a file are oracle fields: what `perform_ocr` returns for it (errors
surface as a sentinel-prefixed string, never as an exception, src/app.py
lines 105-120), and whether `file_storage.read()` succeeds for the Gemini
part (with the exception text when it does not). -/
structure UploadedFile where
  filename : String
  ocrResult : String
  readOk : Bool
  readErrMsg : String
deriving DecidableEq

/-- Result of perform_ocr (src/app.py line 105): the Vision API is an
oracle, its per-file answer is carried by the file itself. -/
def perform_ocr (f : UploadedFile) : String := f.ocrResult

/-- Content part handed to the model (text or inline image data). -/
inductive GPart where
  | text : String → GPart
  | image : String → GPart

/-- Content type of the incoming request. -/
inductive ReqContentType where
  | multipart
  | jsonBody
  | other

/-- Incoming HTTP request as the transport would deliver it: the optional
form/body string fields, the file lists (empty when a field is absent,
as `request.files.getlist` returns), and for a JSON body whether
`request.get_json()` succeeds. -/
structure GradeRequest where
  contentType : ReqContentType
  jsonValid : Bool
  submissionType : Option String
  gradeLevel : Option String
  text : Option String
  bookrange : Option String
  learnsheets : Option String
  worksheetCategory : Option String
  standardAnswerText : Option String
  scoringInstructions : Option String
  essayImage : List UploadedFile
  learningSheetFile : List UploadedFile
  readingWritingFile : List UploadedFile
  standardAnswerImage : List UploadedFile

/-- Prompt feedback attached to a model response with no candidates
(src/app.py lines 950-954): the attribute may be absent, present without a
block reason, or present with one. -/
inductive PromptFeedback where
  | absent : PromptFeedback
  | noBlock : String → PromptFeedback
  | blocked : String → PromptFeedback

/-- Candidate of a model response: its content parts, `none` for a part
without a text attribute (filtered out at src/app.py line 959). -/
structure Candidate where
  parts : List (Option String)

/-- Model response: candidate list, prompt feedback, and its `str(...)`
rendering (used in the generic 500 details, src/app.py line 996). -/
structure ModelResponse where
  candidates : List Candidate
  promptFeedback : PromptFeedback
  strForm : String

/-- Environment of external collaborators, fixed for one request:
blob storage (`bucket, path` to contents; `none` folds together a missing
blob and a download exception, both of which the source helpers turn into
`None`), the Python json codec, the prompt bucket name from the
environment variable, and the outcome of the single
`gemini_model.generate_content` call (`Except.error e` is an API exception
with `str(e) = e`). -/
structure Env where
  blob : String → String → Option String
  jsonLoads : String → Option JValue
  jsonDumps : JValue → String
  promptBucket : String
  model : Except String ModelResponse

/-- Helper get_prompt_from_gcs (src/app.py line 123): contents of the blob,
`None` when it does not exist or fetching raises. -/
def get_prompt_from_gcs (env : Env) (bucket_name file_path_in_bucket : String) :
    Option String :=
  env.blob bucket_name file_path_in_bucket

/-- Static lookup table answer_file_map of
get_standard_answer_for_lesson_from_gcs (src/app.py lines 154-161). -/
def answer_file_map (key : String) : Option String :=
  if key = "七年級全英提問學習單參考答案" then some "全英提問學習單參考答案(01_1下).txt"
  else if key = "八年級全英提問學習單參考答案" then some "全英提問學習單參考答案(01_2下).txt"
  else if key = "九年級全英提問學習單參考答案" then some "全英提問學習單參考答案(01_3下).txt"
  else if key = "七年級差異化學習單參考答案" then some "差異化學習單參考答案(01_1下).txt"
  else if key = "八年級差異化學習單參考答案" then some "差異化學習單參考答案(01_2下).txt"
  else if key = "九年級差異化學習單參考答案" then some "差異化學習單參考答案(01_3下).txt"
  else none

/-- Static lookup table of get_standard_answer_for_reading_writing_from_gcs
(src/app.py lines 213-217). -/
def rw_answer_file_map (key : String) : Option String :=
  if key = "七年級讀寫習作參考答案" then some "113_1習作標準答案.txt"
  else if key = "八年級讀寫習作參考答案" then some "113_2習作標準答案.txt"
  else if key = "九年級讀寫習作參考答案" then some "113_3習作標準答案.txt"
  else none

/-- Reference loader for 學習單批改 (src/app.py lines 140-196). Returns
`none` when: the grade/category combination is unmapped; the blob does not
exist (or fetching raises); `json.loads` raises; the decoded value is not a
dict (`.get` raises, caught at line 193); the lesson key is absent; or the
keyed sub-document is falsy (`if not lesson_data`). -/
def get_standard_answer_for_lesson_from_gcs (env : Env)
    (bucket_name base_file_path grade_level learnsheets_key worksheet_category : String) :
    Option JValue :=
  match answer_file_map (grade_level ++ worksheet_category) with
  | none => none
  | some target_filename =>
      match env.blob bucket_name (base_file_path ++ target_filename) with
      | none => none
      | some json_content =>
          match env.jsonLoads json_content with
          | none => none
          | some all_answers_data =>
              match all_answers_data with
              | .obj fields =>
                  match lookupField fields learnsheets_key with
                  | none => none
                  | some lesson_data =>
                      if jtruthy lesson_data then some lesson_data else none
              | _ => none

/-- Reference loader for 讀寫習作評分 (src/app.py lines 198-253), same
not-found behaviour keyed on `grade_level ++ "讀寫習作參考答案"` and the
requested `bookrange`. -/
def get_standard_answer_for_reading_writing_from_gcs (env : Env)
    (bucket_name base_file_path grade_level bookrange : String) : Option JValue :=
  match rw_answer_file_map (grade_level ++ "讀寫習作參考答案") with
  | none => none
  | some target_filename =>
      match env.blob bucket_name (base_file_path ++ target_filename) with
      | none => none
      | some json_content =>
          match env.jsonLoads json_content with
          | none => none
          | some all_answers_data =>
              match all_answers_data with
              | .obj fields =>
                  match lookupField fields bookrange with
                  | none => none
                  | some book_data =>
                      if jtruthy book_data then some book_data else none
              | _ => none

/-- JSON structure example strings (src/app.py lines 526-874 define four
large mock dicts whose `json.dumps` renderings are substituted into the
prompt; their text is never inspected by any control flow, so the literal
bodies are abbreviated here to distinct stand-in renderings). -/
def mock_paragraph_json : String := "JSON_EXAMPLE(段落寫作評閱)"

/-- Abbreviated dumps of mock_quiz_data_for_structure. -/
def mock_quiz_json : String := "JSON_EXAMPLE(測驗寫作評改)"

/-- Abbreviated dumps of mock_learning_sheet_structure. -/
def mock_learning_sheet_json : String := "JSON_EXAMPLE(學習單批改)"

/-- Abbreviated dumps of mock_reading_writing_structure. -/
def mock_reading_writing_json : String := "JSON_EXAMPLE(讀寫習作評分)"

/-- Helper get_json_format_example (src/app.py lines 255-269): four-way
dispatch on the submission type, defaulting to the paragraph example. -/
def get_json_format_example (submission_type : String) : String :=
  if submission_type = "測驗寫作評改" then mock_quiz_json
  else if submission_type = "段落寫作評閱" then mock_paragraph_json
  else if submission_type = "學習單批改" then mock_learning_sheet_json
  else if submission_type = "讀寫習作評分" then mock_reading_writing_json
  else mock_paragraph_json

/-- Prompt file table (src/app.py lines 505-510). -/
def prompt_file_map (submission_type : String) : Option String :=
  if submission_type = "段落寫作評閱" then some "段落寫作評閱.txt"
  else if submission_type = "測驗寫作評改" then some "測驗寫作評改.txt"
  else if submission_type = "學習單批改" then some "學習單批改.txt"
  else if submission_type = "讀寫習作評分" then some "讀寫習作評分.txt"
  else none

/-- HTTP response: status code plus JSON body (`jsonify(...)`). -/
structure HttpResponse where
  status : Nat
  body : JValue

/-- Error envelope with only an error message. -/
def errBody (msg : String) : JValue :=
  .obj [("error", .str msg)]

/-- Error envelope with a details_for_log field. -/
def errBodyLog (msg log : String) : JValue :=
  .obj [("error", .str msg), ("details_for_log", .str log)]

/-- Error envelope of the outermost handler, with a details field
(src/app.py line 1002). -/
def errBodyDetails (msg details : String) : JValue :=
  .obj [("error", .str msg), ("details", .str details)]

/-- Observable trace of one run: whether `generate_content` was invoked,
and when the prompt-assembly point was reached, the reference JSON string,
the processed standard answer, and the parts list sent to the model. -/
structure Trace where
  modelCalled : Bool
  refStr : Option String
  stdAnswer : Option String
  sentParts : Option (List GPart)

/-- Trace of a run that stopped before the reference/standard-answer stage. -/
def emptyTrace : Trace :=
  { modelCalled := false, refStr := none, stdAnswer := none, sentParts := none }

/-- Variables of grade_writing after the content-type dispatch
(src/app.py lines 278-326). -/
structure Parsed where
  submissionType : Option String
  gradeLevel : Option String
  textInput : Option String
  bookrange : Option String
  learnsheets : Option String
  worksheetCategory : Option String
  standardAnswerText : Option String
  scoringInstructions : Option String
  essayImageFiles : List UploadedFile
  learningSheetFiles : List UploadedFile
  readingWritingFiles : List UploadedFile
  standardAnswerImageFiles : List UploadedFile

/-- Exception text used when `request.get_json()` rejects the body (a
werkzeug BadRequest, caught only by the outermost handler). -/
def badJsonExnText : String :=
  "400 Bad Request: The browser (or proxy) sent a request that this server could not understand."

/-- Variables produced by the multipart branch (src/app.py lines 291-309):
form fields are read directly, bookrange / learnsheets / worksheetCategory /
standardAnswer fields only under the matching submission type (with the
source defaults). -/
def multipartParsed (req : GradeRequest) : Parsed :=
  { submissionType := req.submissionType
    gradeLevel := req.gradeLevel
    textInput := req.text
    bookrange := if req.submissionType = some "讀寫習作評分" then req.bookrange else none
    learnsheets := if req.submissionType = some "學習單批改" then req.learnsheets else none
    worksheetCategory :=
      if req.submissionType = some "學習單批改" then req.worksheetCategory else none
    standardAnswerText :=
      if req.submissionType = some "測驗寫作評改"
      then some (req.standardAnswerText.getD "") else none
    scoringInstructions :=
      if req.submissionType = some "測驗寫作評改"
      then some (req.scoringInstructions.getD "") else none
    essayImageFiles := req.essayImage
    learningSheetFiles := req.learningSheetFile
    readingWritingFiles := req.readingWritingFile
    standardAnswerImageFiles :=
      if req.submissionType = some "測驗寫作評改" then req.standardAnswerImage else [] }

/-- Variables produced by the JSON-body branch (files stay empty). -/
def jsonParsed (req : GradeRequest) : Parsed :=
  { submissionType := req.submissionType
    gradeLevel := req.gradeLevel
    textInput := req.text
    bookrange := req.bookrange
    learnsheets := req.learnsheets
    worksheetCategory := req.worksheetCategory
    standardAnswerText :=
      if req.submissionType = some "測驗寫作評改"
      then some (req.standardAnswerText.getD "") else none
    scoringInstructions :=
      if req.submissionType = some "測驗寫作評改"
      then some (req.scoringInstructions.getD "") else none
    essayImageFiles := []
    learningSheetFiles := []
    readingWritingFiles := []
    standardAnswerImageFiles := [] }

/-- Variables left by the unhandled-content-type branch: the form of a
non-form request is empty, every lookup yields None. -/
def otherParsed : Parsed :=
  { submissionType := none
    gradeLevel := none
    textInput := none
    bookrange := none
    learnsheets := none
    worksheetCategory := none
    standardAnswerText := none
    scoringInstructions := none
    essayImageFiles := []
    learningSheetFiles := []
    readingWritingFiles := []
    standardAnswerImageFiles := [] }

/-- Request parsing (src/app.py lines 291-326): dispatch over the content
type; an invalid JSON body raises out of the handler body. -/
def parseRequest (req : GradeRequest) : Except String Parsed :=
  match req.contentType with
  | .multipart => .ok (multipartParsed req)
  | .jsonBody =>
      if req.jsonValid then .ok (jsonParsed req)
      else .error badJsonExnText
  | .other => .ok otherParsed

/-- Classification of one OCR result inside the loops: kept when it is not
a sentinel error and not blank after stripping (src/app.py lines 351-356). -/
def ocrKeep (t : String) : Bool :=
  !(containsSub "OCR_ERROR:" t) && pyStrip t != ""

/-- Per-file loop body shared by the three student-content branches
(src/app.py lines 348-367, 380-396, 407-423): OCR each file in order,
collect the kept transcriptions, add the raw image as a part, abort with
the branch-specific message when reading the image bytes fails. -/
def ocrReadLoop (readErr : UploadedFile → String) :
    List UploadedFile → Except String (List String × List GPart)
  | [] => .ok ([], [])
  | f :: fs =>
      if f.readOk then
        match ocrReadLoop readErr fs with
        | .error m => .error m
        | .ok (ts, ps) =>
            .ok ((if ocrKeep (perform_ocr f) then perform_ocr f :: ts else ts),
                 GPart.image f.filename :: ps)
      else .error (readErr f)

/-- Read-failure message of the essay branch (src/app.py line 367). -/
def essayReadErr (f : UploadedFile) : String :=
  "Failed to read student essay image file " ++ f.filename ++ " for Gemini: " ++ f.readErrMsg

/-- Read-failure message of the learning-sheet branch (src/app.py line 396). -/
def sheetReadErr (f : UploadedFile) : String :=
  "Failed to read learning sheet file " ++ f.filename ++ " for Gemini: " ++ f.readErrMsg

/-- Read-failure message of the reading/writing branch (src/app.py line 423). -/
def rwReadErr (f : UploadedFile) : String :=
  "Failed to read reading/writing worksheet file " ++ f.filename ++ " for Gemini: " ++ f.readErrMsg

/-- Placeholder essay content when every OCR failed (src/app.py line 372;
unreachable in the essay branch because the guard at line 369 already
returned, kept for fidelity). -/
def essayOcrPlaceholder : String :=
  "（圖片內容 OCR 失敗或為空，請參考隨後提供的原始圖片）"

/-- Placeholder standard answer when every OCR failed (src/app.py line 466). -/
def stdAnswerOcrPlaceholder : String :=
  "（標準答案圖片內容 OCR 失敗或為空，請參考隨後提供的原始圖片）"

/-- Preamble part of the essay image branch (src/app.py line 347). -/
def essayPreamble : String :=
  "學生提交的原始作業圖片內容，供您參考理解其版面和手寫內容："

/-- Preamble part of the learning-sheet branch (src/app.py line 379). -/
def sheetPreamble : String :=
  "學生提交的原始學習單圖片內容，供您參考理解其版面和手寫內容："

/-- Preamble part of the reading/writing branch (src/app.py line 406). -/
def rwPreamble : String :=
  "學生提交的原始讀寫習作圖片內容，供您參考理解其版面和手寫內容："

/-- Preamble part of the standard-answer images (src/app.py line 444). -/
def stdAnswerPreamble : String :=
  "\n測驗的原始標準答案圖片內容，供您參考理解其版面和手寫內容："

/-- Content extraction over the four submission categories
(src/app.py lines 341-431). Success yields the essay content string and
the parts accumulated so far; failure yields the full 400 response. -/
def extractStage (p : Parsed) : Except HttpResponse (String × List GPart) :=
  if p.submissionType = some "段落寫作評閱" ∨ p.submissionType = some "測驗寫作評改" then
    if truthyS p.textInput then .ok (p.textInput.getD "", [])
    else if !p.essayImageFiles.isEmpty then
      match ocrReadLoop essayReadErr p.essayImageFiles with
      | .error m => .error ⟨400, errBody m⟩
      | .ok (ts, ps) =>
          if ts.isEmpty && !truthyS p.textInput then
            .error ⟨400, errBody "OCR failed or returned empty for all provided images, and no text input."⟩
          else
            .ok ((if !ts.isEmpty then String.intercalate "\n\n" ts else essayOcrPlaceholder),
                 GPart.text essayPreamble :: ps)
    else
      .error ⟨400, errBody ("For " ++ pyStr p.submissionType ++ ", text input or an essay image is required.")⟩
  else if p.submissionType = some "學習單批改" then
    if !p.learningSheetFiles.isEmpty then
      match ocrReadLoop sheetReadErr p.learningSheetFiles with
      | .error m => .error ⟨400, errBody m⟩
      | .ok (ts, ps) =>
          if ts.isEmpty then
            .error ⟨400, errBody "OCR failed or returned empty for all provided learning sheet images."⟩
          else
            .ok (String.intercalate "\n\n" ts, GPart.text sheetPreamble :: ps)
    else
      .error ⟨400, errBody "Learning sheet file is required for \x27學習單批改\x27."⟩
  else if p.submissionType = some "讀寫習作評分" then
    if !p.readingWritingFiles.isEmpty then
      match ocrReadLoop rwReadErr p.readingWritingFiles with
      | .error m => .error ⟨400, errBody m⟩
      | .ok (ts, ps) =>
          if ts.isEmpty then
            .error ⟨400, errBody "OCR failed or returned empty for all provided reading/writing worksheet images."⟩
          else
            .ok (String.intercalate "\n\n" ts, GPart.text rwPreamble :: ps)
    else
      .error ⟨400, errBody "Reading/writing worksheet file is required for \x27讀寫習作評分\x27."⟩
  else
    .error ⟨400, errBody ("Unsupported submission type for content processing: " ++ pyStr p.submissionType)⟩

/-- Standard-answer loop (src/app.py lines 445-461): OCR each image, keep
non-error non-blank transcriptions; a failing byte read only skips the
image part, it never aborts. -/
def stdAnswerLoop : List UploadedFile → List String × List GPart
  | [] => ([], [])
  | f :: fs =>
      let (ts, ps) := stdAnswerLoop fs
      ((if ocrKeep (perform_ocr f) then perform_ocr f :: ts else ts),
       (if f.readOk then GPart.image f.filename :: ps else ps))

/-- Standard-answer processing, 測驗寫作評改 only (src/app.py lines 437-468):
prefer the text field, else OCR the images (joined, or a fixed placeholder
when nothing was kept), else leave empty. -/
def stdAnswerStage (p : Parsed) : String × List GPart :=
  if p.submissionType = some "測驗寫作評改" then
    if truthyS p.standardAnswerText then (p.standardAnswerText.getD "", [])
    else if !p.standardAnswerImageFiles.isEmpty then
      let (ts, ps) := stdAnswerLoop p.standardAnswerImageFiles
      ((if !ts.isEmpty then String.intercalate "\n\n" ts else stdAnswerOcrPlaceholder),
       GPart.text stdAnswerPreamble :: ps)
    else ("", [])
  else ("", [])

/-- Reference JSON string (src/app.py lines 470-501): loaded for
學習單批改 (when learnsheets and worksheetCategory are truthy) and for
讀寫習作評分 (when bookrange is truthy), dumped when found, else empty. -/
def referenceStage (env : Env) (p : Parsed) : String :=
  if p.submissionType = some "學習單批改" ∧ truthyS p.learnsheets ∧ truthyS p.worksheetCategory then
    match get_standard_answer_for_lesson_from_gcs env env.promptBucket "ai_english_file/"
        (p.gradeLevel.getD "") (p.learnsheets.getD "") (p.worksheetCategory.getD "") with
    | some d => env.jsonDumps d
    | none => ""
  else if p.submissionType = some "讀寫習作評分" ∧ truthyS p.bookrange then
    match get_standard_answer_for_reading_writing_from_gcs env env.promptBucket "ai_english_file/"
        (p.gradeLevel.getD "") (p.bookrange.getD "") with
    | some d => env.jsonDumps d
    | none => ""
  else ""

/-- Failure modes of Python `str.format`: a missing keyword (caught by the
source at line 898) or any other ValueError/IndexError/AttributeError
(which escapes to the outermost handler). -/
inductive FmtErr where
  | keyError : String → FmtErr
  | otherError : String → FmtErr

/-- Keyword lookup among the substitution arguments. -/
def lookupArg : List (String × String) → String → Option String
  | [], _ => none
  | (k, v) :: t, key => if k = key then some v else lookupArg t key

/-- Resolution of one replacement field: the name is the part before a
conversion or format spec; empty or numeric names are positional (no
positional arguments are supplied, an IndexError escapes); names with
attribute or index access look up the base name first (missing base is the
KeyError) and otherwise fail on the string value; plain names are looked
up among the keywords. A format spec never changes a fully-string
substitution, so rendering ignores it. -/
def resolveField (args : List (String × String)) (keyChars : List Char) :
    Except FmtErr (List Char) :=
  let name := String.mk (keyChars.takeWhile (fun c => c ≠ '!' ∧ c ≠ ':'))
  if name.data.all Char.isDigit then
    .error (.otherError "Replacement index 0 out of range for positional args tuple")
  else if name.data.any (fun c => c = '.' ∨ c = '[') then
    match lookupArg args (String.mk (name.data.takeWhile (fun c => c ≠ '.' ∧ c ≠ '['))) with
    | none => .error (.keyError (String.mk (name.data.takeWhile (fun c => c ≠ '.' ∧ c ≠ '['))))
    | some _ => .error (.otherError "str object has no such attribute")
  else
    match lookupArg args name with
    | some v => .ok v.data
    | none => .error (.keyError name)

/-- Scanner state of the format engine: between fields, just after a lone
closing brace, or inside a replacement field (accumulated in reverse). -/
inductive FmtSt where
  | outside : FmtSt
  | sawClose : FmtSt
  | inKey : List Char → FmtSt

/-- One pass of Python `str.format` over the template characters; `out` is
the rendered output in reverse. -/
def pyFormatGo (args : List (String × String)) (st : FmtSt) (out : List Char) :
    List Char → Except FmtErr (List Char)
  | [] =>
      match st with
      | .outside => .ok out.reverse
      | .sawClose => .error (.otherError "Single \x27\x7d\x27 encountered in format string")
      | .inKey _ => .error (.otherError "expected \x27\x7d\x27 before end of string")
  | c :: cs =>
      match st with
      | .outside =>
          if c = '{' then pyFormatGo args (.inKey []) out cs
          else if c = '}' then pyFormatGo args .sawClose out cs
          else pyFormatGo args .outside (c :: out) cs
      | .sawClose =>
          if c = '}' then pyFormatGo args .outside ('}' :: out) cs
          else .error (.otherError "Single \x27\x7d\x27 encountered in format string")
      | .inKey acc =>
          if c = '}' then
            match resolveField args acc.reverse with
            | .error e => .error e
            | .ok v => pyFormatGo args .outside (v.reverse ++ out) cs
          else if c = '{' then
            if acc.isEmpty then pyFormatGo args .outside ('{' :: out) cs
            else .error (.otherError "unexpected \x27\x7b\x27 in field name")
          else pyFormatGo args (.inKey (c :: acc)) out cs

/-- Python `template.format(**args)` (keyword substitutions only, as in
src/app.py lines 887-897). -/
def pyFormat (template : String) (args : List (String × String)) :
    Except FmtErr String :=
  match pyFormatGo args .outside [] template.data with
  | .ok cs => .ok (String.mk cs)
  | .error e => .error e

/-- The nine keyword substitutions of the prompt template
(src/app.py lines 887-897). -/
def formatNine (p : Parsed)
    (essay_content processed_standard_answer json_format_example_str
     standard_answers_json_str : String) : List (String × String) :=
  [("Book", if p.submissionType = some "讀寫習作評分" then pyStr p.bookrange else ""),
   ("learnsheet", if p.submissionType = some "學習單批改" then pyStr p.learnsheets else ""),
   ("grade_level", pyStr p.gradeLevel),
   ("submission_type", pyStr p.submissionType),
   ("essay_content", essay_content),
   ("standard_answer_if_any",
     if p.submissionType = some "測驗寫作評改" then processed_standard_answer else ""),
   ("scoring_instructions_if_any",
     if p.submissionType = some "測驗寫作評改" then pyStr p.scoringInstructions else ""),
   ("json_format_example_str", json_format_example_str),
   ("current_lesson_standard_answers_json", standard_answers_json_str)]

/-- Rendering of the prompt feedback of a candidate-less response
(src/app.py lines 951-953). -/
def promptFeedbackStr : PromptFeedback → String
  | .absent => "No prompt_feedback attribute"
  | .noBlock s => s
  | .blocked r => "Blocked due to: " ++ r

/-- Concatenation of the text parts of the first candidate
(src/app.py line 959). -/
def joinCandidateText (c : Candidate) : String :=
  String.join (c.parts.filterMap id)

/-- Truncated `str(response)` for the generic processing failure
(src/app.py line 996). -/
def truncDetail (s : String) : String :=
  if s.length < 500 then s else pySlice s 500 ++ "..."

/-- Response normaliser (src/app.py lines 948-997): reject a candidate-less
response; join the text parts; select the fenced block or the whole text;
parse it; on a dict result repair submissionType when absent or different;
a non-dict result makes the membership test or the assignment raise, which
the generic handler at line 993 turns into the processing-failure 500. -/
def normalizeResponse (env : Env) (submission_type : String) (resp : ModelResponse) :
    HttpResponse :=
  match resp.candidates with
  | [] =>
      ⟨500, errBodyLog "AI model did not return a valid response (it might have been blocked)."
        (promptFeedbackStr resp.promptFeedback)⟩
  | c :: _ =>
      let full_response_text := joinCandidateText c
      let ai_response_text := extractAiText full_response_text
      match env.jsonLoads ai_response_text with
      | none =>
          ⟨500, errBodyLog "AI response format error (cannot parse JSON)."
            (pySlice full_response_text 500)⟩
      | some ai_result =>
          match ai_result with
          | .obj fields =>
              ⟨200, .obj (match lookupField fields "submissionType" with
                | some (.str t) =>
                    if t = submission_type then fields
                    else setField fields "submissionType" (.str submission_type)
                | _ => setField fields "submissionType" (.str submission_type))⟩
          | _ => ⟨500, errBodyLog "Failed to process AI response." (truncDetail resp.strForm)⟩

/-- Body of grade_writing after request parsing (src/app.py lines 331-997):
field validation, content extraction, the emptiness guard, standard-answer
processing, reference loading, prompt fetch and fill, the model call and
response normalisation. The `Except` error channel carries exceptions that
only the outermost handler catches. -/
def pipelineCore (env : Env) (p : Parsed) : Except String (HttpResponse × Trace) :=
  if !truthyS p.submissionType || !truthyS p.gradeLevel then
    .ok (⟨400, errBody "Missing submissionType or gradeLevel after parsing request"⟩, emptyTrace)
  else
    match extractStage p with
    | .error resp => .ok (resp, emptyTrace)
    | .ok (essay_content, parts) =>
        if pyStrip essay_content = "" && !truthyS p.textInput && parts.isEmpty then
          .ok (⟨400, errBody "Essay content is empty after processing input"⟩, emptyTrace)
        else
          let stdPair := stdAnswerStage p
          let standard_answers_json_str := referenceStage env p
          let preTrace : Trace :=
            { modelCalled := false, refStr := some standard_answers_json_str,
              stdAnswer := some stdPair.1, sentParts := none }
          let st := p.submissionType.getD ""
          match prompt_file_map st with
          | none =>
              .ok (⟨400, errBody ("Unsupported submission type: " ++ st)⟩, preTrace)
          | some prompt_file_name =>
              let full_prompt_path := "ai_english_prompt/" ++ prompt_file_name
              let bpo := get_prompt_from_gcs env env.promptBucket full_prompt_path
              if !truthyS bpo then
                .ok (⟨500, errBody ("Failed to load prompt template for " ++ st ++
                      " from gs://" ++ env.promptBucket ++ "/" ++ full_prompt_path)⟩, preTrace)
              else
                let json_format_example_str := get_json_format_example st
                match pyFormat (bpo.getD "")
                    (formatNine p essay_content stdPair.1 json_format_example_str
                      standard_answers_json_str) with
                | .error (.keyError k) =>
                    .ok (⟨500, errBody ("Prompt template formatting error: Missing key \x27" ++
                          k ++ "\x27")⟩, preTrace)
                | .error (.otherError m) => .error m
                | .ok final_prompt =>
                    let contents := GPart.text final_prompt :: (parts ++ stdPair.2)
                    let tr : Trace :=
                      { modelCalled := true, refStr := some standard_answers_json_str,
                        stdAnswer := some stdPair.1, sentParts := some contents }
                    match env.model with
                    | .error e =>
                        .ok (⟨500, errBodyLog "AI model API call failed." e⟩, tr)
                    | .ok resp => .ok (normalizeResponse env st resp, tr)

/-- Handler body inside the outermost try (src/app.py lines 277-997). -/
def gradeBody (env : Env) (req : GradeRequest) : Except String (HttpResponse × Trace) :=
  match parseRequest req with
  | .error e => .error e
  | .ok p => pipelineCore env p

/-- Route handler grade_writing (src/app.py lines 272-1002): the outermost
try/except converts any escaped exception into the generic 500 envelope. -/
def gradeWriting (env : Env) (req : GradeRequest) : HttpResponse × Trace :=
  match gradeBody env req with
  | .ok r => r
  | .error e =>
      (⟨500, errBodyDetails "Internal server error during grading." e⟩, emptyTrace)

/-- Template with no replacement fields at all. -/
def braceFree (s : String) : Bool :=
  s.data.all (fun c => c ≠ '{' ∧ c ≠ '}')

/-- Transcriptions the loops keep: OCR results of the files, in order,
without sentinel errors and blanks. -/
def ocrSuccesses (files : List UploadedFile) : List String :=
  (files.map perform_ocr).filter ocrKeep

/-- Lookup in a JSON object body; `none` on other values. -/
def bodyGet (v : JValue) (key : String) : Option JValue :=
  match v with
  | .obj fields => lookupField fields key
  | _ => none

/-- Claim wording of C4: the extracted content is the raw text when it is
present, else the kept OCR transcriptions joined by a blank line. -/
def claimedEssayContent (p : Parsed) : String :=
  if truthyS p.textInput then p.textInput.getD ""
  else String.intercalate "\n\n" (ocrSuccesses p.essayImageFiles)

/-- Messages the essay-branch extractor can reject a request with
(src/app.py lines 367, 370, 375). -/
def ExtractionErrorMsg (st m : String) : Prop :=
  m = "For " ++ st ++ ", text input or an essay image is required." ∨
  m = "OCR failed or returned empty for all provided images, and no text input." ∨
  ∃ fn e, m = "Failed to read student essay image file " ++ fn ++ " for Gemini: " ++ e

/-- Claim wording of C6: one of the three not-found situations of the
學習單批改 reference loader, for a given environment and request data. -/
def LoaderNotFound (env : Env) (grade cat key : String) : Prop :=
  answer_file_map (grade ++ cat) = none ∨
  (∃ tf, answer_file_map (grade ++ cat) = some tf ∧
    env.blob env.promptBucket ("ai_english_file/" ++ tf) = none) ∨
  (∃ tf content fields, answer_file_map (grade ++ cat) = some tf ∧
    env.blob env.promptBucket ("ai_english_file/" ++ tf) = some content ∧
    env.jsonLoads content = some (.obj fields) ∧
    lookupField fields key = none)

/-- Per-file failure condition of claim C5/C10: the OCR yielded a sentinel
error or blank text. -/
def ocrFailedOrBlank (f : UploadedFile) : Prop :=
  ocrKeep (perform_ocr f) = false

/-- Property every boundary response satisfies (claim C9): an HTTP status
among 200/400/500, and for non-200 a JSON error envelope whose first field
is the error message. -/
def RespOK (r : HttpResponse) : Prop :=
  (r.status = 200 ∨ r.status = 400 ∨ r.status = 500) ∧
  (r.status ≠ 200 → ∃ m rest, r.body = .obj (("error", .str m) :: rest))

/-- Fixture: a file whose OCR succeeds. -/
def okFile : UploadedFile :=
  { filename := "page1.jpg", ocrResult := "Hello essay text.", readOk := true,
    readErrMsg := "" }

/-- Fixture: a file whose OCR returns the sentinel error. -/
def errFile : UploadedFile :=
  { filename := "page2.jpg", ocrResult := "OCR_ERROR: Vision API error: bad image",
    readOk := true, readErrMsg := "" }

/-- Fixture: a file whose OCR returns blank text. -/
def blankFile : UploadedFile :=
  { filename := "page3.jpg", ocrResult := " \n ", readOk := true, readErrMsg := "" }

/-- Fixture: a model reply that is a JSON object with a wrong category. -/
def witObjText : String :=
  "\x7b\"submissionType\": \"X\", \"overall_assessment\": \"good\"\x7d"

/-- Fixture: json codec oracle parsing exactly the fixture reply. -/
def witJsonLoads : String → Option JValue := fun s =>
  if s = witObjText then
    some (.obj [("submissionType", .str "X"), ("overall_assessment", .str "good")])
  else none

/-- Fixture: blob storage holding the four prompt templates and nothing
else (in particular no answer-key files). -/
def witBlob : String → String → Option String := fun _ path =>
  if path = "ai_english_prompt/段落寫作評閱.txt" then some "PROMPT TEMPLATE"
  else if path = "ai_english_prompt/測驗寫作評改.txt" then some "PROMPT TEMPLATE"
  else if path = "ai_english_prompt/學習單批改.txt" then some "PROMPT TEMPLATE"
  else if path = "ai_english_prompt/讀寫習作評分.txt" then some "PROMPT TEMPLATE"
  else none

/-- Fixture: successful model response carrying the fixture reply. -/
def witRespObj : ModelResponse :=
  { candidates := [{ parts := [some witObjText] }], promptFeedback := .absent,
    strForm := "candidates: ..." }

/-- Fixture: model response with zero candidates (safety block). -/
def witRespEmpty : ModelResponse :=
  { candidates := [], promptFeedback := .blocked "PROHIBITED_CONTENT",
    strForm := "empty response" }

/-- Fixture: model response whose text does not parse as JSON. -/
def witRespBad : ModelResponse :=
  { candidates := [{ parts := [some "I am not JSON."] }], promptFeedback := .absent,
    strForm := "bad response" }

/-- Fixture environment: templates present, answer keys absent, model
returning the fixture object reply. -/
def witEnv : Env :=
  { blob := witBlob, jsonLoads := witJsonLoads, jsonDumps := fun _ => "\x7b\x7d",
    promptBucket := "prompt-bucket", model := .ok witRespObj }

/-- Fixture request: a valid text-only 段落寫作評閱 multipart submission. -/
def baseReq : GradeRequest :=
  { contentType := .multipart, jsonValid := true,
    submissionType := some "段落寫作評閱", gradeLevel := some "七年級",
    text := some "My essay.", bookrange := none, learnsheets := none,
    worksheetCategory := none, standardAnswerText := none,
    scoringInstructions := none, essayImage := [], learningSheetFile := [],
    readingWritingFile := [], standardAnswerImage := [] }

/-- Fixture request: the same text-only submission for 學習單批改. -/
def sheetTextOnlyReq : GradeRequest :=
  { baseReq with submissionType := some "學習單批改" }

/-- Fixture request: 段落寫作評閱 with neither text nor images. -/
def c5Req : GradeRequest :=
  { baseReq with text := none }

/-- Fixture request: 學習單批改 with one readable sheet image and an
answer-key selection whose file is absent from storage. -/
def c6Req : GradeRequest :=
  { baseReq with
    submissionType := some "學習單批改"
    text := none
    learningSheetFile := [okFile]
    learnsheets := some "Lesson 1"
    worksheetCategory := some "全英提問學習單參考答案" }

/-- Fixture request: 測驗寫作評改 with text content and standard-answer
images that all fail OCR or are blank. -/
def c10Req : GradeRequest :=
  { baseReq with
    submissionType := some "測驗寫作評改"
    standardAnswerImage := [errFile, blankFile] }

/-- Fixture parsed variables of the base request. -/
def c4Parsed : Parsed := multipartParsed baseReq

theorem matchLit_eq_some : ∀ {p cs r : List Char}, matchLit p cs = some r → cs = p ++ r := by
  intro p
  induction p with
  | nil => intro cs r h; simp [matchLit] at h; simp [h]
  | cons a ps ih =>
    intro cs r h
    cases cs with
    | nil => simp [matchLit] at h
    | cons c cs =>
      simp only [matchLit] at h
      by_cases hac : a = c
      · rw [if_pos hac] at h
        subst hac
        rw [ih h]
        simp
      · rw [if_neg hac] at h
        exact absurd h (by simp)

theorem matchLit_self : ∀ (p r : List Char), matchLit p (p ++ r) = some r := by
  intro p r
  induction p with
  | nil => simp [matchLit]
  | cons a ps ih => simp [matchLit, ih]

theorem dropWhile_append_all {p : Char → Bool} :
    ∀ {ws l : List Char}, (∀ c ∈ ws, p c = true) →
      List.dropWhile p (ws ++ l) = List.dropWhile p l := by
  intro ws
  induction ws with
  | nil => intro l _; rfl
  | cons c ws ih =>
    intro l h
    have hc : p c = true := h c (List.mem_cons_self c ws)
    simp only [List.cons_append, List.dropWhile_cons, hc, if_true]
    exact ih (fun x hx => h x (List.mem_cons_of_mem c hx))

theorem dropWhile_tick (l : List Char) :
    List.dropWhile pyWs (tickLit ++ l) = tickLit ++ l := by
  have h3 : tickLit ++ l = Char.ofNat 96 :: ("``".data ++ l) := rfl
  rw [h3, List.dropWhile_cons, if_neg (by decide : ¬ (pyWs (Char.ofNat 96) = true))]

theorem findClose_sound : ∀ {cs mid : List Char}, findClose cs = some mid →
    ∃ ws2 post, cs = mid ++ '}' :: (ws2 ++ tickLit ++ post) ∧ ∀ c ∈ ws2, pyWs c = true := by
  intro cs
  induction cs with
  | nil => intro mid h; simp [findClose] at h
  | cons c cs ih =>
    intro mid h
    simp only [findClose] at h
    by_cases hc : c = '}' ∧ (matchLit tickLit (cs.dropWhile pyWs)).isSome
    · rw [if_pos hc] at h
      obtain ⟨hc1, hc2⟩ := hc
      obtain ⟨post, hpost⟩ := Option.isSome_iff_exists.mp hc2
      have hdec := matchLit_eq_some hpost
      cases h
      refine ⟨cs.takeWhile pyWs, post, ?_, fun x hx => List.mem_takeWhile_imp hx⟩
      subst hc1
      have := List.takeWhile_append_dropWhile pyWs cs
      conv_lhs => rw [← this]
      rw [hdec]
      simp
    · rw [if_neg hc] at h
      cases hfc : findClose cs with
      | none => rw [hfc] at h; simp at h
      | some mid2 =>
        rw [hfc] at h
        injection h with h2
        obtain ⟨ws2, post, hcs, hws⟩ := ih hfc
        cases h2
        exact ⟨ws2, post, by rw [hcs]; simp, hws⟩

theorem findClose_complete : ∀ (mid ws2 post : List Char), (∀ c ∈ ws2, pyWs c = true) →
    (findClose (mid ++ '}' :: (ws2 ++ tickLit ++ post))).isSome := by
  intro mid
  induction mid with
  | nil =>
    intro ws2 post h
    have hdw : List.dropWhile pyWs (ws2 ++ tickLit ++ post) = tickLit ++ post := by
      rw [List.append_assoc, dropWhile_append_all h, dropWhile_tick]
    simp only [List.nil_append, findClose, List.append_eq]
    split
    · rfl
    · rename_i hcond
      exact absurd ⟨trivial, by rw [hdw, matchLit_self]; rfl⟩ hcond
  | cons c mid ih =>
    intro ws2 post h
    simp only [List.cons_append, findClose, List.append_eq]
    split
    · rfl
    · have hih := ih ws2 post h
      cases hfc : findClose (mid ++ '}' :: (ws2 ++ tickLit ++ post)) with
      | none => rw [hfc] at hih; simp at hih
      | some m => rfl

theorem afterFence_sound : ∀ {dw g : List Char}, afterFence dw = some g →
    ∃ mid ws2 post, dw = '{' :: (mid ++ '}' :: (ws2 ++ tickLit ++ post)) ∧
      (∀ c ∈ ws2, pyWs c = true) ∧ g = '{' :: (mid ++ ['}']) := by
  intro dw g h
  cases dw with
  | nil => simp [afterFence] at h
  | cons c rest =>
    simp only [afterFence] at h
    by_cases hc : c = '{'
    · rw [if_pos hc] at h
      subst hc
      cases h3 : findClose rest with
      | none => rw [h3] at h; simp at h
      | some mid =>
        rw [h3] at h
        injection h with h4
        obtain ⟨ws2, post, hrest, hws2⟩ := findClose_sound h3
        exact ⟨mid, ws2, post, by rw [hrest], hws2, h4.symm⟩
    · rw [if_neg hc] at h
      simp at h

theorem matchFenceAt_sound {cs g : List Char} (h : matchFenceAt cs = some g) :
    ∃ ws1 mid ws2 post,
      cs = fenceLit ++ ws1 ++ ('{' :: (mid ++ ['}'])) ++ ws2 ++ tickLit ++ post ∧
      (∀ c ∈ ws1, pyWs c = true) ∧ (∀ c ∈ ws2, pyWs c = true) ∧
      g = '{' :: (mid ++ ['}']) := by
  unfold matchFenceAt at h
  cases h1 : matchLit fenceLit cs with
  | none => rw [h1] at h; simp at h
  | some r =>
    rw [h1, Option.some_bind] at h
    have hcs := matchLit_eq_some h1
    obtain ⟨mid, ws2, post, hdw, hws2, hg⟩ := afterFence_sound h
    refine ⟨r.takeWhile pyWs, mid, ws2, post, ?_,
      fun x hx => List.mem_takeWhile_imp hx, hws2, hg⟩
    rw [hcs]
    conv_lhs => rw [← List.takeWhile_append_dropWhile pyWs r, hdw]
    simp

theorem afterFence_complete (mid ws2 post : List Char) (h : ∀ c ∈ ws2, pyWs c = true) :
    (afterFence ('{' :: (mid ++ '}' :: (ws2 ++ tickLit ++ post)))).isSome := by
  have hfc := findClose_complete mid ws2 post h
  simpa [afterFence] using hfc

theorem dropWhile_brace (l : List Char) :
    List.dropWhile pyWs ('{' :: l) = '{' :: l := by
  rw [List.dropWhile_cons, if_neg (by decide : ¬ (pyWs '{' = true))]

theorem matchFenceAt_complete (ws1 mid ws2 post : List Char)
    (h1 : ∀ c ∈ ws1, pyWs c = true) (h2 : ∀ c ∈ ws2, pyWs c = true) :
    (matchFenceAt (fenceLit ++ ws1 ++ ('{' :: (mid ++ ['}'])) ++ ws2 ++ tickLit ++ post)).isSome := by
  have hassoc : fenceLit ++ ws1 ++ ('{' :: (mid ++ ['}'])) ++ ws2 ++ tickLit ++ post
      = fenceLit ++ (ws1 ++ ('{' :: (mid ++ '}' :: (ws2 ++ tickLit ++ post)))) := by
    simp
  rw [hassoc]
  unfold matchFenceAt
  rw [matchLit_self, Option.some_bind, dropWhile_append_all h1, dropWhile_brace]
  exact afterFence_complete mid ws2 post h2

theorem searchFence_sound : ∀ {cs g : List Char}, searchFence cs = some g →
    FencedObjMatch cs g := by
  intro cs
  induction cs with
  | nil => intro g h; simp [searchFence] at h
  | cons c cs ih =>
    intro g h
    simp only [searchFence] at h
    cases hm : matchFenceAt (c :: cs) with
    | some g2 =>
      rw [hm] at h
      injection h with h2
      subst h2
      obtain ⟨ws1, mid, ws2, post, hcs, hws1, hws2, hg⟩ := matchFenceAt_sound hm
      exact ⟨[], ws1, mid, ws2, post, by rw [hcs]; simp, hws1, hws2, hg⟩
    | none =>
      rw [hm] at h
      obtain ⟨pre, ws1, mid, ws2, post, hcs, hws1, hws2, hg⟩ := ih h
      exact ⟨c :: pre, ws1, mid, ws2, post, by rw [hcs]; simp, hws1, hws2, hg⟩

theorem searchFence_isSome_append {rest : List Char} (h : (matchFenceAt rest).isSome) :
    ∀ pre : List Char, (searchFence (pre ++ rest)).isSome := by
  intro pre
  induction pre with
  | nil =>
    cases rest with
    | nil => simp [matchFenceAt, matchLit, fenceLit] at h
    | cons r rs =>
      simp only [List.nil_append, searchFence]
      cases hm : matchFenceAt (r :: rs) with
      | none => rw [hm] at h; simp at h
      | some g => rfl
  | cons p ps ih =>
    simp only [List.cons_append, searchFence]
    cases hm : matchFenceAt (p :: (ps ++ rest)) with
    | none => exact ih
    | some g => rfl

theorem searchFence_complete {cs g : List Char} (h : FencedObjMatch cs g) :
    (searchFence cs).isSome := by
  obtain ⟨pre, ws1, mid, ws2, post, hcs, hws1, hws2, _⟩ := h
  have hm := matchFenceAt_complete ws1 mid ws2 post hws1 hws2
  have hcs2 : cs = pre ++ (fenceLit ++ ws1 ++ ('{' :: (mid ++ ['}'])) ++ ws2 ++ tickLit ++ post) := by
    rw [hcs]; simp
  rw [hcs2]
  exact searchFence_isSome_append hm pre

/-- C3 (counterexample): the claim says the normaliser prefers a json fenced
code block whenever one is present, parsing only the fenced content. On the
response text below a fenced block is present and its content is the JSON
array text, yet the source regex (which requires a braced object inside the
fence) does not match, so the code parses the entire response text instead
of the fenced content. -/
theorem c3_claim_counterexample :
    claimFencedContent "Here is the result:\n```json\n[1, 2]\n```\nDone." = some "[1, 2]" ∧
    extractAiText "Here is the result:\n```json\n[1, 2]\n```\nDone."
      = "Here is the result:\n```json\n[1, 2]\n```\nDone." ∧
    extractAiText "Here is the result:\n```json\n[1, 2]\n```\nDone."
      ≠ claimExtract "Here is the result:\n```json\n[1, 2]\n```\nDone." := by
  refine ⟨by decide, by decide, by decide⟩

/-- C3 (amended): for every model response text, the normalizer extracts
the JSON to parse by preferring a json fenced code block whose body is a
brace-delimited object (regex with DOTALL over the fence, inner whitespace
and a lazily matched braced body) when one is present, parsing only that
braced content; otherwise — including when a json fence is present whose
body is not a braced object — the entire response text is the JSON to
parse. Soundness: a returned group really is the braced body of a fenced
block of the text. Completeness: whenever any such fenced braced block
exists, the search succeeds; the whole text is used exactly when none
exists. -/
theorem c3_fenced_extraction (s : String) :
    (∃ g, searchFence s.data = some g ∧ FencedObjMatch s.data g ∧
      extractAiText s = String.mk g) ∨
    (searchFence s.data = none ∧ extractAiText s = s ∧
      ∀ g, ¬ FencedObjMatch s.data g) := by
  cases hs : searchFence s.data with
  | some g =>
      left
      exact ⟨g, rfl, searchFence_sound hs, by unfold extractAiText; rw [hs]⟩
  | none =>
      right
      refine ⟨rfl, by unfold extractAiText; rw [hs], fun g hg => ?_⟩
      have := searchFence_complete hg
      rw [hs] at this
      simp at this

theorem lookupField_setField_self : ∀ (fs : List (String × JValue)) (k : String) (v : JValue),
    lookupField (setField fs k v) k = some v := by
  intro fs k v
  induction fs with
  | nil => simp [setField, lookupField]
  | cons p t ih =>
    obtain ⟨k2, w⟩ := p
    simp only [setField]
    by_cases hk : k2 = k
    · rw [if_pos hk]; simp [lookupField, hk]
    · rw [if_neg hk]; simp [lookupField, hk, ih]

theorem normalize_obj (env : Env) (st : String) (resp : ModelResponse)
    (c : Candidate) (rest : List Candidate) (fields : List (String × JValue))
    (hcand : resp.candidates = c :: rest)
    (hparse : env.jsonLoads (extractAiText (joinCandidateText c)) = some (.obj fields)) :
    ∃ out, normalizeResponse env st resp = ⟨200, .obj out⟩ ∧
      lookupField out "submissionType" = some (.str st) := by
  unfold normalizeResponse
  rw [hcand]
  simp only [hparse]
  cases hl : lookupField fields "submissionType" with
  | none => exact ⟨setField fields "submissionType" (.str st), rfl,
      lookupField_setField_self fields "submissionType" (.str st)⟩
  | some v =>
    cases v with
    | str t =>
      by_cases ht : t = st
      · subst ht
        exact ⟨fields, by simp, hl⟩
      · exact ⟨setField fields "submissionType" (.str st), by simp [ht],
          lookupField_setField_self fields "submissionType" (.str st)⟩
    | null => exact ⟨setField fields "submissionType" (.str st), rfl,
        lookupField_setField_self fields "submissionType" (.str st)⟩
    | bool b => exact ⟨setField fields "submissionType" (.str st), rfl,
        lookupField_setField_self fields "submissionType" (.str st)⟩
    | num n => exact ⟨setField fields "submissionType" (.str st), rfl,
        lookupField_setField_self fields "submissionType" (.str st)⟩
    | arr xs => exact ⟨setField fields "submissionType" (.str st), rfl,
        lookupField_setField_self fields "submissionType" (.str st)⟩
    | obj fs => exact ⟨setField fields "submissionType" (.str st), rfl,
        lookupField_setField_self fields "submissionType" (.str st)⟩

/-- C1: for every request that reaches the normaliser with a successfully
parsed JSON object from the model, if the parsed object carries a
submissionType different from the request category (or none at all), the
returned 200 body carries the request category, not the model value. -/
theorem c1_submission_type_repair (env : Env) (submission_type : String)
    (resp : ModelResponse) (c : Candidate) (rest : List Candidate)
    (fields : List (String × JValue))
    (hcand : resp.candidates = c :: rest)
    (hparse : env.jsonLoads (extractAiText (joinCandidateText c)) = some (.obj fields))
    (hdiff : lookupField fields "submissionType" ≠ some (.str submission_type)) :
    ∃ out, normalizeResponse env submission_type resp = ⟨200, .obj out⟩ ∧
      lookupField out "submissionType" = some (.str submission_type) :=
  normalize_obj env submission_type resp c rest fields hcand hparse

/-- C1 witness: the fixture model reply declares submissionType "X" for a
段落寫作評閱 request, and the normalised body carries 段落寫作評閱. -/
theorem c1_witness :
    lookupField [("submissionType", JValue.str "X"),
        ("overall_assessment", JValue.str "good")] "submissionType"
      ≠ some (.str "段落寫作評閱") ∧
    (∃ out, normalizeResponse witEnv "段落寫作評閱" witRespObj = ⟨200, .obj out⟩ ∧
      lookupField out "submissionType" = some (.str "段落寫作評閱")) := by
  constructor
  · simp [lookupField]
  · exact c1_submission_type_repair witEnv "段落寫作評閱" witRespObj
      { parts := [some witObjText] } []
      [("submissionType", JValue.str "X"), ("overall_assessment", JValue.str "good")]
      rfl rfl (by simp [lookupField])

theorem pySlice_length (s : String) (n : Nat) : (pySlice s n).length ≤ n := by
  show (String.mk (s.data.take n)).length ≤ n
  have h1 : (String.mk (s.data.take n)).length = (s.data.take n).length := rfl
  rw [h1]
  exact List.length_take_le n s.data

/-- C7: for every model response whose extracted text fails JSON parsing,
the endpoint answers 500 with the parse-error envelope whose
details_for_log field is the raw joined response text truncated to at most
500 characters. -/
theorem c7_parse_failure_truncated (env : Env) (submission_type : String)
    (resp : ModelResponse) (c : Candidate) (rest : List Candidate)
    (hcand : resp.candidates = c :: rest)
    (hparse : env.jsonLoads (extractAiText (joinCandidateText c)) = none) :
    normalizeResponse env submission_type resp =
      ⟨500, errBodyLog "AI response format error (cannot parse JSON)."
        (pySlice (joinCandidateText c) 500)⟩ ∧
    (pySlice (joinCandidateText c) 500).length ≤ 500 := by
  constructor
  · unfold normalizeResponse
    rw [hcand]
    simp only [hparse]
  · exact pySlice_length (joinCandidateText c) 500

/-- C7 witness: the fixture non-JSON reply produces the parse-error 500
with the truncated raw text. -/
theorem c7_witness :
    normalizeResponse witEnv "段落寫作評閱" witRespBad =
      ⟨500, errBodyLog "AI response format error (cannot parse JSON)."
        (pySlice (joinCandidateText { parts := [some "I am not JSON."] }) 500)⟩ ∧
    (pySlice (joinCandidateText { parts := [some "I am not JSON."] }) 500).length ≤ 500 :=
  c7_parse_failure_truncated witEnv "段落寫作評閱" witRespBad
    { parts := [some "I am not JSON."] } [] rfl rfl

/-- C8: for every model response with zero candidates, the endpoint answers
500 saying the model did not return a valid response; since this holds for
every environment (in particular every json codec oracle), no parsing of
response text is attempted. -/
theorem c8_empty_candidates (env : Env) (submission_type : String)
    (resp : ModelResponse) (h : resp.candidates = []) :
    normalizeResponse env submission_type resp =
      ⟨500, errBodyLog "AI model did not return a valid response (it might have been blocked)."
        (promptFeedbackStr resp.promptFeedback)⟩ := by
  unfold normalizeResponse
  rw [h]

/-- C8 witness: the fixture blocked response produces the 500 with the
block reason in the log details. -/
theorem c8_witness :
    normalizeResponse witEnv "段落寫作評閱" witRespEmpty =
      ⟨500, errBodyLog "AI model did not return a valid response (it might have been blocked)."
        (promptFeedbackStr (PromptFeedback.blocked "PROHIBITED_CONTENT"))⟩ :=
  c8_empty_candidates witEnv "段落寫作評閱" witRespEmpty rfl

theorem ocrSuccesses_nil : ocrSuccesses [] = [] := rfl

theorem ocrSuccesses_cons (f : UploadedFile) (fs : List UploadedFile) :
    ocrSuccesses (f :: fs) =
      if ocrKeep (perform_ocr f) then perform_ocr f :: ocrSuccesses fs
      else ocrSuccesses fs := by
  simp [ocrSuccesses, List.filter_cons]

theorem ocrSuccesses_nil_of_allbad : ∀ {files : List UploadedFile},
    (∀ f ∈ files, ocrKeep (perform_ocr f) = false) → ocrSuccesses files = [] := by
  intro files
  induction files with
  | nil => intro _; rfl
  | cons f fs ih =>
    intro h
    rw [ocrSuccesses_cons, if_neg (by simp [h f (List.mem_cons_self f fs)]),
      ih (fun x hx => h x (List.mem_cons_of_mem f hx))]

theorem ocrReadLoop_allReadOk (readErr : UploadedFile → String) :
    ∀ {files : List UploadedFile}, (∀ f ∈ files, f.readOk = true) →
      ocrReadLoop readErr files =
        .ok (ocrSuccesses files, files.map (fun f => GPart.image f.filename)) := by
  intro files
  induction files with
  | nil => intro _; rfl
  | cons f fs ih =>
    intro h
    have hr : f.readOk = true := h f (List.mem_cons_self f fs)
    have hrest := ih (fun x hx => h x (List.mem_cons_of_mem f hx))
    simp only [ocrReadLoop, hr, if_true, hrest, ocrSuccesses_cons, List.map_cons]

theorem ocrReadLoop_cases (readErr : UploadedFile → String) :
    ∀ (files : List UploadedFile),
      ocrReadLoop readErr files =
        .ok (ocrSuccesses files, files.map (fun f => GPart.image f.filename)) ∨
      ∃ f ∈ files, ocrReadLoop readErr files = .error (readErr f) := by
  intro files
  induction files with
  | nil => left; rfl
  | cons f fs ih =>
    by_cases hr : f.readOk = true
    · cases ih with
      | inl hok =>
        left
        simp only [ocrReadLoop, hr, if_true, hok, ocrSuccesses_cons, List.map_cons]
      | inr herr =>
        obtain ⟨f2, hmem, heq⟩ := herr
        right
        refine ⟨f2, List.mem_cons_of_mem f hmem, ?_⟩
        simp only [ocrReadLoop, hr, if_true, heq]
    · right
      refine ⟨f, List.mem_cons_self f fs, ?_⟩
      simp only [ocrReadLoop, Bool.not_eq_true] at hr
      simp only [ocrReadLoop, hr, Bool.false_eq_true, if_false]

theorem stdAnswerLoop_fst : ∀ (files : List UploadedFile),
    (stdAnswerLoop files).1 = ocrSuccesses files := by
  intro files
  induction files with
  | nil => rfl
  | cons f fs ih =>
    simp only [stdAnswerLoop, ih, ocrSuccesses_cons]

theorem extractStage_text (p : Parsed)
    (htwo : p.submissionType = some "段落寫作評閱" ∨ p.submissionType = some "測驗寫作評改")
    (ht : truthyS p.textInput = true) :
    extractStage p = .ok (p.textInput.getD "", []) := by
  unfold extractStage
  rw [if_pos htwo, if_pos ht]

theorem extractStage_images (p : Parsed)
    (htwo : p.submissionType = some "段落寫作評閱" ∨ p.submissionType = some "測驗寫作評改")
    (ht : truthyS p.textInput = false)
    (hne : p.essayImageFiles ≠ [])
    (hread : ∀ f ∈ p.essayImageFiles, f.readOk = true)
    (hsucc : ocrSuccesses p.essayImageFiles ≠ []) :
    extractStage p = .ok (String.intercalate "\n\n" (ocrSuccesses p.essayImageFiles),
      GPart.text essayPreamble ::
        p.essayImageFiles.map (fun f => GPart.image f.filename)) := by
  unfold extractStage
  rw [if_pos htwo, ht]
  have hemp : p.essayImageFiles.isEmpty = false := by
    simpa [List.isEmpty_iff] using hne
  rw [hemp]
  simp only [Bool.not_false, if_true, if_false, ocrReadLoop_allReadOk _ hread]
  have hts : (ocrSuccesses p.essayImageFiles).isEmpty = false := by
    simpa [List.isEmpty_iff] using hsucc
  simp only [hts, Bool.false_and, Bool.not_false, if_true, Bool.false_eq_true, if_false]

theorem extractStage_fail (p : Parsed) (st : String)
    (hst : p.submissionType = some st)
    (htwo : st = "段落寫作評閱" ∨ st = "測驗寫作評改")
    (ht : truthyS p.textInput = false)
    (hfail : p.essayImageFiles = [] ∨ ∀ f ∈ p.essayImageFiles, ocrKeep (perform_ocr f) = false) :
    ∃ m, extractStage p = .error ⟨400, errBody m⟩ ∧ ExtractionErrorMsg st m := by
  have htwo2 : p.submissionType = some "段落寫作評閱" ∨ p.submissionType = some "測驗寫作評改" := by
    cases htwo with
    | inl h => left; rw [hst, h]
    | inr h => right; rw [hst, h]
  by_cases hemp : p.essayImageFiles = []
  · refine ⟨"For " ++ st ++ ", text input or an essay image is required.", ?_, Or.inl rfl⟩
    unfold extractStage
    rw [if_pos htwo2, ht]
    have hemp2 : p.essayImageFiles.isEmpty = true := by simp [hemp]
    rw [hemp2]
    simp only [Bool.false_eq_true, if_false, Bool.not_true, hst, pyStr]
  · have hbad : ∀ f ∈ p.essayImageFiles, ocrKeep (perform_ocr f) = false := by
      cases hfail with
      | inl h => exact absurd h hemp
      | inr h => exact h
    have hemp2 : p.essayImageFiles.isEmpty = false := by
      simpa [List.isEmpty_iff] using hemp
    cases ocrReadLoop_cases essayReadErr p.essayImageFiles with
    | inl hok =>
      refine ⟨"OCR failed or returned empty for all provided images, and no text input.",
        ?_, Or.inr (Or.inl rfl)⟩
      unfold extractStage
      rw [if_pos htwo2, ht, hemp2]
      simp only [Bool.false_eq_true, if_false, Bool.not_false, if_true, hok]
      rw [ocrSuccesses_nil_of_allbad hbad]
      simp [ht]
    | inr herr =>
      obtain ⟨f, hmem, heq⟩ := herr
      refine ⟨essayReadErr f, ?_, Or.inr (Or.inr ⟨f.filename, f.readErrMsg, rfl⟩)⟩
      unfold extractStage
      rw [if_pos htwo2, ht, hemp2]
      simp only [Bool.false_eq_true, if_false, Bool.not_false, if_true, heq]

theorem gradeWriting_multipart_extract_error (env : Env) (req : GradeRequest)
    (resp : HttpResponse)
    (hct : req.contentType = .multipart)
    (hsub : truthyS (multipartParsed req).submissionType = true)
    (hgl : truthyS (multipartParsed req).gradeLevel = true)
    (hex : extractStage (multipartParsed req) = .error resp) :
    gradeWriting env req = (resp, emptyTrace) := by
  have hpb : gradeBody env req = pipelineCore env (multipartParsed req) := by
    unfold gradeBody parseRequest
    rw [hct]
  unfold gradeWriting
  rw [hpb]
  unfold pipelineCore
  rw [hsub, hgl]
  simp only [Bool.not_true, Bool.or_self, Bool.false_eq_true, if_false, hex]

/-- C4: for the text-eligible categories, if raw text is present (truthy)
the extracted content is the raw text verbatim; otherwise — given attached
images that are readable and at least one kept transcription — the
extracted content is the concatenation of the successful (non-error,
non-blank) OCR transcriptions in order, joined by a blank line. -/
theorem c4_extracted_content (p : Parsed)
    (htwo : p.submissionType = some "段落寫作評閱" ∨ p.submissionType = some "測驗寫作評改")
    (himg : truthyS p.textInput = false →
      p.essayImageFiles ≠ [] ∧ (∀ f ∈ p.essayImageFiles, f.readOk = true) ∧
        ocrSuccesses p.essayImageFiles ≠ []) :
    ∃ parts, extractStage p = .ok (claimedEssayContent p, parts) := by
  by_cases ht : truthyS p.textInput = true
  · refine ⟨[], ?_⟩
    rw [extractStage_text p htwo ht]
    unfold claimedEssayContent
    rw [if_pos ht]
  · have ht2 : truthyS p.textInput = false := by simpa using ht
    obtain ⟨hne, hread, hsucc⟩ := himg ht2
    refine ⟨GPart.text essayPreamble ::
      p.essayImageFiles.map (fun f => GPart.image f.filename), ?_⟩
    rw [extractStage_images p htwo ht2 hne hread hsucc]
    unfold claimedEssayContent
    rw [ht2]
    simp

/-- C4 witness: the fixture parsed request carries raw text, and the
extractor returns it verbatim. -/
theorem c4_witness :
    ∃ parts, extractStage c4Parsed = .ok (claimedEssayContent c4Parsed, parts) :=
  c4_extracted_content c4Parsed (Or.inl rfl) (by decide)

/-- C5: for every text-eligible request supplying neither truthy text nor
any usable image (no images at all, or every OCR failing or blank), the
endpoint answers 400 with one of the extraction-related messages and the
model is never called. -/
theorem c5_extractionless_400 (env : Env) (req : GradeRequest) (st : String)
    (hct : req.contentType = .multipart)
    (hst : req.submissionType = some st)
    (htwo : st = "段落寫作評閱" ∨ st = "測驗寫作評改")
    (hgl : truthyS req.gradeLevel = true)
    (htext : truthyS req.text = false)
    (hfail : req.essayImage = [] ∨ ∀ f ∈ req.essayImage, ocrKeep (perform_ocr f) = false) :
    ∃ m, (gradeWriting env req).1 = ⟨400, errBody m⟩ ∧ ExtractionErrorMsg st m ∧
      (gradeWriting env req).2.modelCalled = false := by
  obtain ⟨m, hex, hmsg⟩ := extractStage_fail (multipartParsed req) st hst htwo htext hfail
  have hsub : truthyS (multipartParsed req).submissionType = true := by
    have hs2 : (multipartParsed req).submissionType = some st := hst
    rw [hs2]
    cases htwo with
    | inl h => subst h; decide
    | inr h => subst h; decide
  have hw := gradeWriting_multipart_extract_error env req ⟨400, errBody m⟩ hct hsub hgl hex
  rw [hw]
  exact ⟨m, rfl, hmsg, rfl⟩

/-- C5 witness: the fixture request with no text and no images is refused
with an extraction-related 400 and no model call. -/
theorem c5_witness :
    ∃ m, (gradeWriting witEnv c5Req).1 = ⟨400, errBody m⟩ ∧
      ExtractionErrorMsg "段落寫作評閱" m ∧
      (gradeWriting witEnv c5Req).2.modelCalled = false :=
  c5_extractionless_400 witEnv c5Req "段落寫作評閱" rfl rfl (Or.inl rfl)
    (by decide) (by decide) (Or.inl rfl)

theorem pyFormatGo_outside_clean (args : List (String × String)) :
    ∀ (cs out : List Char), (∀ c ∈ cs, c ≠ '{' ∧ c ≠ '}') →
      pyFormatGo args .outside out cs = .ok (out.reverse ++ cs) := by
  intro cs
  induction cs with
  | nil => intro out _; simp [pyFormatGo]
  | cons c cs ih =>
    intro out h
    obtain ⟨h1, h2⟩ := h c (List.mem_cons_self c cs)
    simp only [pyFormatGo, if_neg h1, if_neg h2]
    rw [ih (c :: out) (fun x hx => (h x (List.mem_cons_of_mem c hx)))]
    simp

theorem pyFormat_braceFree {T : String} (hbf : braceFree T = true)
    (args : List (String × String)) : pyFormat T args = .ok T := by
  unfold pyFormat
  have h : ∀ c ∈ T.data, c ≠ '{' ∧ c ≠ '}' := by
    intro c hc
    have := List.all_eq_true.mp hbf c hc
    simpa using this
  rw [pyFormatGo_outside_clean args T.data [] h]
  simp

theorem pipelineCore_run (env : Env) (p : Parsed) (st pf T ec : String)
    (parts : List GPart)
    (hst : p.submissionType = some st)
    (hsub : truthyS p.submissionType = true)
    (hgl : truthyS p.gradeLevel = true)
    (hex : extractStage p = .ok (ec, parts))
    (hguard : (decide (pyStrip ec = "") && !truthyS p.textInput && parts.isEmpty) = false)
    (hpf : prompt_file_map st = some pf)
    (htpl : env.blob env.promptBucket ("ai_english_prompt/" ++ pf) = some T)
    (hT : T ≠ "")
    (hbf : braceFree T = true) :
    pipelineCore env p = .ok
      ((match env.model with
        | .error e => ⟨500, errBodyLog "AI model API call failed." e⟩
        | .ok resp => normalizeResponse env st resp),
       { modelCalled := true, refStr := some (referenceStage env p),
         stdAnswer := some (stdAnswerStage p).1,
         sentParts := some (GPart.text T :: (parts ++ (stdAnswerStage p).2)) }) := by
  unfold pipelineCore
  rw [hsub, hgl]
  simp only [Bool.not_true, Bool.or_self, Bool.false_eq_true, if_false, hex]
  rw [hguard]
  simp only [Bool.false_eq_true, if_false, hst, Option.getD_some, hpf]
  unfold get_prompt_from_gcs
  rw [htpl]
  have htr : truthyS (some T) = true := by simp [truthyS, hT]
  rw [htr]
  simp only [Bool.not_true, Bool.false_eq_true, if_false, Option.getD_some,
    pyFormat_braceFree hbf]
  cases env.model with
  | error e => rfl
  | ok resp => rfl

theorem gradeBody_multipart (env : Env) (req : GradeRequest)
    (hct : req.contentType = .multipart) :
    gradeBody env req = pipelineCore env (multipartParsed req) := by
  unfold gradeBody parseRequest
  rw [hct]

theorem extractStage_sheet (p : Parsed)
    (hst : p.submissionType = some "學習單批改")
    (hne : p.learningSheetFiles ≠ [])
    (hread : ∀ f ∈ p.learningSheetFiles, f.readOk = true)
    (hsucc : ocrSuccesses p.learningSheetFiles ≠ []) :
    extractStage p = .ok (String.intercalate "\n\n" (ocrSuccesses p.learningSheetFiles),
      GPart.text sheetPreamble ::
        p.learningSheetFiles.map (fun f => GPart.image f.filename)) := by
  unfold extractStage
  rw [if_neg (by rw [hst]; simp), if_pos hst]
  have hemp : p.learningSheetFiles.isEmpty = false := by
    simpa [List.isEmpty_iff] using hne
  rw [hemp]
  simp only [Bool.not_false, if_true, ocrReadLoop_allReadOk _ hread]
  have hts : (ocrSuccesses p.learningSheetFiles).isEmpty = false := by
    simpa [List.isEmpty_iff] using hsucc
  simp only [hts, Bool.false_eq_true, if_false]

theorem loader_not_found (env : Env) (grade key cat : String)
    (h : LoaderNotFound env grade cat key) :
    get_standard_answer_for_lesson_from_gcs env env.promptBucket "ai_english_file/"
      grade key cat = none := by
  unfold get_standard_answer_for_lesson_from_gcs
  cases h with
  | inl hmap => rw [hmap]
  | inr h2 =>
    cases h2 with
    | inl hblob =>
      obtain ⟨tf, hmap, hb⟩ := hblob
      simp only [hmap, hb]
    | inr hkey =>
      obtain ⟨tf, content, fields, hmap, hb, hload, hlk⟩ := hkey
      simp only [hmap, hb, hload, hlk]

theorem referenceStage_sheet_empty (env : Env) (p : Parsed)
    (hst : p.submissionType = some "學習單批改")
    (hls : truthyS p.learnsheets = true)
    (hwc : truthyS p.worksheetCategory = true)
    (hnf : get_standard_answer_for_lesson_from_gcs env env.promptBucket "ai_english_file/"
      (p.gradeLevel.getD "") (p.learnsheets.getD "") (p.worksheetCategory.getD "") = none) :
    referenceStage env p = "" := by
  unfold referenceStage
  rw [if_pos ⟨hst, hls, hwc⟩, hnf]

theorem stdAnswerStage_not_quiz (p : Parsed)
    (h : p.submissionType ≠ some "測驗寫作評改") :
    stdAnswerStage p = ("", []) := by
  unfold stdAnswerStage
  rw [if_neg h]

theorem stdAnswerStage_placeholder (p : Parsed)
    (hst : p.submissionType = some "測驗寫作評改")
    (hsat : truthyS p.standardAnswerText = false)
    (hne : p.standardAnswerImageFiles ≠ [])
    (hbad : ∀ f ∈ p.standardAnswerImageFiles, ocrKeep (perform_ocr f) = false) :
    (stdAnswerStage p).1 = stdAnswerOcrPlaceholder := by
  unfold stdAnswerStage
  rw [if_pos hst, hsat]
  have hemp : p.standardAnswerImageFiles.isEmpty = false := by
    simpa [List.isEmpty_iff] using hne
  rw [hemp]
  simp only [Bool.false_eq_true, if_false, Bool.not_false, if_true]
  have hfst : (stdAnswerLoop p.standardAnswerImageFiles).1 = [] := by
    rw [stdAnswerLoop_fst, ocrSuccesses_nil_of_allbad hbad]
  rw [hfst]
  simp

theorem normalize_status (env : Env) (st : String) (resp : ModelResponse) :
    (normalizeResponse env st resp).status = 200 ∨
    (normalizeResponse env st resp).status = 500 := by
  unfold normalizeResponse
  split
  · right; rfl
  · dsimp only
    split
    · right; rfl
    · split
      · left; rfl
      · right; rfl

/-- C6: the 學習單批改 reference loader returns the not-found value (never
raising, its error paths all fold to None) whenever the grade/category
combination is unmapped, the storage file is absent, or the lesson key is
missing from the decoded JSON object; and a request whose loader comes up
empty still proceeds to the model call with an empty reference string. -/
theorem c6_reference_fallthrough :
    (∀ (env : Env) (grade key cat : String), LoaderNotFound env grade cat key →
      get_standard_answer_for_lesson_from_gcs env env.promptBucket "ai_english_file/"
        grade key cat = none) ∧
    (∀ (env : Env) (req : GradeRequest) (T : String),
      req.contentType = .multipart →
      req.submissionType = some "學習單批改" →
      truthyS req.gradeLevel = true →
      truthyS req.learnsheets = true →
      truthyS req.worksheetCategory = true →
      req.learningSheetFile ≠ [] →
      (∀ f ∈ req.learningSheetFile, f.readOk = true) →
      ocrSuccesses req.learningSheetFile ≠ [] →
      env.blob env.promptBucket "ai_english_prompt/學習單批改.txt" = some T →
      T ≠ "" → braceFree T = true →
      LoaderNotFound env (req.gradeLevel.getD "") (req.worksheetCategory.getD "")
        (req.learnsheets.getD "") →
      (gradeWriting env req).2.refStr = some "" ∧
      (gradeWriting env req).2.modelCalled = true) := by
  constructor
  · intro env grade key cat h
    exact loader_not_found env grade key cat h
  · intro env req T hct hst hgl hls hwc hne hread hsucc htpl hT hbf hlnf
    have hst2 : (multipartParsed req).submissionType = some "學習單批改" := hst
    have hpl : (multipartParsed req).learnsheets = req.learnsheets := by
      simp [multipartParsed, hst]
    have hpw : (multipartParsed req).worksheetCategory = req.worksheetCategory := by
      simp [multipartParsed, hst]
    have hex := extractStage_sheet (multipartParsed req) hst2 hne hread hsucc
    have hguard : (decide (pyStrip (String.intercalate "\n\n"
          (ocrSuccesses (multipartParsed req).learningSheetFiles)) = "") &&
        !truthyS (multipartParsed req).textInput &&
        (GPart.text sheetPreamble :: (multipartParsed req).learningSheetFiles.map
          (fun f => GPart.image f.filename)).isEmpty) = false := by
      simp
    have hsub : truthyS (multipartParsed req).submissionType = true := by
      rw [hst2]; decide
    have hrun := pipelineCore_run env (multipartParsed req) "學習單批改" "學習單批改.txt" T
      (String.intercalate "\n\n" (ocrSuccesses (multipartParsed req).learningSheetFiles))
      (GPart.text sheetPreamble :: (multipartParsed req).learningSheetFiles.map
        (fun f => GPart.image f.filename))
      hst2 hsub hgl hex hguard rfl htpl hT hbf
    have href : referenceStage env (multipartParsed req) = "" := by
      refine referenceStage_sheet_empty env (multipartParsed req) hst2 ?_ ?_ ?_
      · rw [hpl]; exact hls
      · rw [hpw]; exact hwc
      · rw [hpl, hpw]
        exact loader_not_found env (req.gradeLevel.getD "") (req.learnsheets.getD "")
          (req.worksheetCategory.getD "") hlnf
    unfold gradeWriting
    rw [gradeBody_multipart env req hct, hrun]
    exact ⟨by rw [href], rfl⟩

/-- C6 witness: an answer-key selection whose file is absent from the
fixture storage is loaded as none, and the fixture 學習單批改 request still
reaches the model with an empty reference string. -/
theorem c6_witness :
    get_standard_answer_for_lesson_from_gcs witEnv witEnv.promptBucket "ai_english_file/"
      "七年級" "Lesson 1" "全英提問學習單參考答案" = none ∧
    ((gradeWriting witEnv c6Req).2.refStr = some "" ∧
      (gradeWriting witEnv c6Req).2.modelCalled = true) := by
  constructor
  · exact c6_reference_fallthrough.1 witEnv "七年級" "Lesson 1" "全英提問學習單參考答案"
      (Or.inr (Or.inl ⟨"全英提問學習單參考答案(01_1下).txt", rfl, rfl⟩))
  · exact c6_reference_fallthrough.2 witEnv c6Req "PROMPT TEMPLATE" rfl rfl
      (by decide) (by decide) (by decide) (by decide) (by decide) (by decide)
      rfl (by decide) (by decide)
      (Or.inr (Or.inl ⟨"全英提問學習單參考答案(01_1下).txt", rfl, rfl⟩))

/-- C10: a 測驗寫作評改 request whose standard-answer images all fail OCR
or come back blank is not rejected: the processed standard answer becomes
the fixed placeholder string and the pipeline continues to the model call
(the final status is never the 400 used to abort on total essay-image OCR
failure). The essay part is supplied as text here, since only the
standard-answer handling is under test. -/
theorem c10_std_answer_ocr_failure (env : Env) (req : GradeRequest) (T : String)
    (hct : req.contentType = .multipart)
    (hst : req.submissionType = some "測驗寫作評改")
    (hgl : truthyS req.gradeLevel = true)
    (htext : truthyS req.text = true)
    (hsat : req.standardAnswerText.getD "" = "")
    (hne : req.standardAnswerImage ≠ [])
    (hbad : ∀ f ∈ req.standardAnswerImage, ocrKeep (perform_ocr f) = false)
    (htpl : env.blob env.promptBucket "ai_english_prompt/測驗寫作評改.txt" = some T)
    (hT : T ≠ "") (hbf : braceFree T = true) :
    (gradeWriting env req).2.stdAnswer = some stdAnswerOcrPlaceholder ∧
    (gradeWriting env req).2.modelCalled = true ∧
    (gradeWriting env req).1.status ≠ 400 := by
  have hst2 : (multipartParsed req).submissionType = some "測驗寫作評改" := hst
  have htext2 : truthyS (multipartParsed req).textInput = true := htext
  have hex := extractStage_text (multipartParsed req) (Or.inr hst2) htext2
  have hguard : (decide (pyStrip ((multipartParsed req).textInput.getD "") = "") &&
      !truthyS (multipartParsed req).textInput &&
      ([] : List GPart).isEmpty) = false := by
    rw [htext2]
    simp
  have hsub : truthyS (multipartParsed req).submissionType = true := by
    rw [hst2]; decide
  have hrun := pipelineCore_run env (multipartParsed req) "測驗寫作評改" "測驗寫作評改.txt" T
    ((multipartParsed req).textInput.getD "") [] hst2 hsub hgl hex hguard rfl htpl hT hbf
  have hsat2 : truthyS (multipartParsed req).standardAnswerText = false := by
    simp [multipartParsed, hst, truthyS, hsat]
  have hsaf : (multipartParsed req).standardAnswerImageFiles = req.standardAnswerImage := by
    simp [multipartParsed, hst]
  have hstd : (stdAnswerStage (multipartParsed req)).1 = stdAnswerOcrPlaceholder := by
    refine stdAnswerStage_placeholder (multipartParsed req) hst2 hsat2 ?_ ?_
    · rw [hsaf]; exact hne
    · rw [hsaf]; exact hbad
  unfold gradeWriting
  rw [gradeBody_multipart env req hct, hrun]
  refine ⟨by rw [hstd], rfl, ?_⟩
  cases hm : env.model with
  | error e => simp
  | ok resp =>
    simp only []
    cases normalize_status env "測驗寫作評改" resp with
    | inl h => rw [h]; decide
    | inr h => rw [h]; decide

/-- C10 witness: the fixture 測驗寫作評改 request with an erroring and a
blank standard-answer image gets the placeholder standard answer and
reaches the model. -/
theorem c10_witness :
    (gradeWriting witEnv c10Req).2.stdAnswer = some stdAnswerOcrPlaceholder ∧
    (gradeWriting witEnv c10Req).2.modelCalled = true ∧
    (gradeWriting witEnv c10Req).1.status ≠ 400 :=
  c10_std_answer_ocr_failure witEnv c10Req "PROMPT TEMPLATE" rfl rfl (by decide)
    (by decide) rfl (by decide) (by decide) rfl (by decide) (by decide)

/-- C2 (counterexample): a valid text-only request (submissionType,
gradeLevel and text, with no files) for the category 學習單批改 is answered
400 — a learning-sheet file is required — not 200, even under a benign
environment in which the same text-only input for 段落寫作評閱 succeeds. -/
theorem c2_claim_counterexample :
    (gradeWriting witEnv sheetTextOnlyReq).1 =
      ⟨400, errBody "Learning sheet file is required for \x27學習單批改\x27."⟩ ∧
    (gradeWriting witEnv sheetTextOnlyReq).1.status ≠ 200 := by
  constructor
  · rfl
  · decide

/-- C2 (amended): for the two text-eligible categories 段落寫作評閱 and
測驗寫作評改, a request with valid text-only input yields — whenever the
prompt template loads, the model call returns a candidate and its text
parses as a JSON object — a 200 response whose submissionType equals the
request category; the other two categories require a file upload and
reject text-only input with 400. -/
theorem c2_text_only_corrected (env : Env) (req : GradeRequest) (st T : String)
    (resp : ModelResponse) (c : Candidate) (rest : List Candidate)
    (fields : List (String × JValue))
    (hct : req.contentType = .multipart)
    (hst : req.submissionType = some st)
    (htwo : st = "段落寫作評閱" ∨ st = "測驗寫作評改")
    (hgl : truthyS req.gradeLevel = true)
    (htext : truthyS req.text = true)
    (htpl : env.blob env.promptBucket ("ai_english_prompt/" ++ st ++ ".txt") = some T)
    (hT : T ≠ "") (hbf : braceFree T = true)
    (hmodel : env.model = .ok resp)
    (hcand : resp.candidates = c :: rest)
    (hparse : env.jsonLoads (extractAiText (joinCandidateText c)) = some (.obj fields)) :
    (gradeWriting env req).1.status = 200 ∧
    bodyGet (gradeWriting env req).1.body "submissionType" = some (.str st) := by
  have hst2 : (multipartParsed req).submissionType = some st := hst
  have htext2 : truthyS (multipartParsed req).textInput = true := htext
  have htwo2 : (multipartParsed req).submissionType = some "段落寫作評閱" ∨
      (multipartParsed req).submissionType = some "測驗寫作評改" := by
    cases htwo with
    | inl h => left; rw [hst2, h]
    | inr h => right; rw [hst2, h]
  have hex := extractStage_text (multipartParsed req) htwo2 htext2
  have hguard : (decide (pyStrip ((multipartParsed req).textInput.getD "") = "") &&
      !truthyS (multipartParsed req).textInput &&
      ([] : List GPart).isEmpty) = false := by
    rw [htext2]
    simp
  have hsub : truthyS (multipartParsed req).submissionType = true := by
    rw [hst2]
    cases htwo with
    | inl h => subst h; decide
    | inr h => subst h; decide
  have hpf : prompt_file_map st = some (st ++ ".txt") := by
    cases htwo with
    | inl h => subst h; rfl
    | inr h => subst h; rfl
  have htpl2 : env.blob env.promptBucket ("ai_english_prompt/" ++ (st ++ ".txt")) = some T := by
    rw [← String.append_assoc]
    exact htpl
  have hrun := pipelineCore_run env (multipartParsed req) st (st ++ ".txt") T
    ((multipartParsed req).textInput.getD "") [] hst2 hsub hgl hex hguard hpf htpl2 hT hbf
  obtain ⟨out, hnorm, hlk⟩ :=
    normalize_obj env st resp c rest fields hcand hparse
  unfold gradeWriting
  rw [gradeBody_multipart env req hct, hrun]
  simp only [hmodel, hnorm]
  exact ⟨trivial, hlk⟩

/-- C2 witness: the fixture text-only 段落寫作評閱 request under the
fixture environment is graded 200 with the request category echoed. -/
theorem c2_witness :
    (gradeWriting witEnv baseReq).1.status = 200 ∧
    bodyGet (gradeWriting witEnv baseReq).1.body "submissionType" =
      some (.str "段落寫作評閱") :=
  c2_text_only_corrected witEnv baseReq "段落寫作評閱" "PROMPT TEMPLATE" witRespObj
    { parts := [some witObjText] } []
    [("submissionType", JValue.str "X"), ("overall_assessment", JValue.str "good")]
    rfl rfl (Or.inl rfl) (by decide) (by decide) rfl (by decide) (by decide)
    rfl rfl rfl

theorem normalize_RespOK (env : Env) (st : String) (resp : ModelResponse) :
    RespOK (normalizeResponse env st resp) := by
  unfold normalizeResponse RespOK
  split
  · exact ⟨Or.inr (Or.inr rfl), fun _ => ⟨_, _, rfl⟩⟩
  · dsimp only
    split
    · exact ⟨Or.inr (Or.inr rfl), fun _ => ⟨_, _, rfl⟩⟩
    · split
      · exact ⟨Or.inl rfl, fun hne => absurd rfl hne⟩
      · exact ⟨Or.inr (Or.inr rfl), fun _ => ⟨_, _, rfl⟩⟩

theorem extractStage_error_form : ∀ {p : Parsed} {r : HttpResponse},
    extractStage p = .error r → ∃ m, r = ⟨400, errBody m⟩ := by
  intro p r h
  unfold extractStage at h
  repeat' split at h
  all_goals
    first
      | (injection h with h2; exact ⟨_, h2.symm⟩)
      | injection h

theorem pipelineCore_ok_RespOK {env : Env} {p : Parsed} {r : HttpResponse} {tr : Trace}
    (h : pipelineCore env p = .ok (r, tr)) : RespOK r := by
  unfold pipelineCore at h
  split at h
  · injection h with h2
    cases h2
    exact ⟨Or.inr (Or.inl rfl), fun _ => ⟨_, _, rfl⟩⟩
  · split at h
    · rename_i resp2 heq
      injection h with h2
      cases h2
      obtain ⟨m, hm⟩ := extractStage_error_form heq
      rw [hm]
      exact ⟨Or.inr (Or.inl rfl), fun _ => ⟨_, _, rfl⟩⟩
    · split at h
      · injection h with h2
        cases h2
        exact ⟨Or.inr (Or.inl rfl), fun _ => ⟨_, _, rfl⟩⟩
      · dsimp only at h
        split at h
        · injection h with h2
          cases h2
          exact ⟨Or.inr (Or.inl rfl), fun _ => ⟨_, _, rfl⟩⟩
        · split at h
          · injection h with h2
            cases h2
            exact ⟨Or.inr (Or.inr rfl), fun _ => ⟨_, _, rfl⟩⟩
          · split at h
            · injection h with h2
              cases h2
              exact ⟨Or.inr (Or.inr rfl), fun _ => ⟨_, _, rfl⟩⟩
            · exact absurd h (by simp)
            · split at h
              · injection h with h2
                cases h2
                exact ⟨Or.inr (Or.inr rfl), fun _ => ⟨_, _, rfl⟩⟩
              · injection h with h2
                cases h2
                exact normalize_RespOK env (p.submissionType.getD "") _

/-- C9: for every environment and request, the handler returns an HTTP
response with status 200, 400 or 500, and every non-200 response body is a
JSON error envelope led by the error message; no exception escapes the
request boundary (the only raises of the body are the invalid-JSON-body
and format ValueError channels, both caught into the generic 500). -/
theorem c9_error_boundary (env : Env) (req : GradeRequest) :
    RespOK (gradeWriting env req).1 := by
  unfold gradeWriting
  cases hgb : gradeBody env req with
  | error e =>
    exact ⟨Or.inr (Or.inr rfl), fun _ => ⟨_, _, rfl⟩⟩
  | ok rr =>
    obtain ⟨r, tr⟩ := rr
    unfold gradeBody at hgb
    split at hgb
    · exact absurd hgb (by simp)
    · exact pipelineCore_ok_RespOK hgb
